import Mathlib

/-!
Verification of the drinks CRUD API in `src/backend/src/api.py` (Flask).

The embedding models JSON values, the drinks table, the five route handlers,
the `AuthError` / HTTP error handlers, and Python's `try/except` control flow.
Python's `flask.abort(code)` raises a `werkzeug` `HTTPException`, which is a
subclass of `Exception`; a surrounding `except Exception:` therefore catches
it.  This fact is load-bearing for the behaviour of the handlers below.

`src/backend/src/database/models.py` and `src/backend/src/auth/auth.py` are
not part of the source tree given under `src/`; the definitions taken from
them are modelled from the spec and marked as such in their doc comments.
-/

set_option maxRecDepth 16384

namespace CoffeeShop

/-- JSON values as exchanged by this API.  Numbers are modelled as integers
(every number appearing in the API's payloads — ids and `parts` — is
integral). Objects are finite key/value lists in insertion order. -/
inductive Json where
  | null
  | bool (b : Bool)
  | num (n : Int)
  | str (s : String)
  | arr (elems : List Json)
  | obj (fields : List (String × Json))
deriving Repr

/-- First value bound to key `k`, as in a Python dict built without duplicate
keys (JSON object keys are unique in every payload this API handles). -/
def lookupField (kvs : List (String × Json)) (k : String) : Option Json :=
  match kvs with
  | [] => none
  | (k2, v) :: rest => if k2 = k then some v else lookupField rest k

/-- Python's `k in body` for a dict `body`. -/
def hasKeyB (kvs : List (String × Json)) (k : String) : Bool :=
  kvs.any (fun kv => kv.1 == k)

/-- Escaping of one character inside a JSON string literal, as `json.dumps`
does for the ASCII payloads this API handles. -/
def escapeChar (c : Char) : String :=
  if c = '"' then "\\\""
  else if c = '\\' then "\\\\"
  else if c = '\n' then "\\n"
  else if c = '\t' then "\\t"
  else if c = '\r' then "\\r"
  else String.singleton c

/-- Escape a whole string for inclusion in JSON output. -/
def escapeString (s : String) : String :=
  String.join (s.toList.map escapeChar)

/-- Left brace character (written via its code point). -/
def lbrace : Char := Char.ofNat 123

/-- Right brace character (written via its code point). -/
def rbrace : Char := Char.ofNat 125

mutual
/-- Python's `json.dumps` with its default separators `", "` and `": "`,
restricted to the value shapes of this API. -/
def jsonDumps : Json → String
  | .null => "null"
  | .bool true => "true"
  | .bool false => "false"
  | .num n => toString n
  | .str s => "\"" ++ escapeString s ++ "\""
  | .arr xs => "[" ++ String.intercalate ", " (dumpsElems xs) ++ "]"
  | .obj kvs => "\x7b" ++ String.intercalate ", " (dumpsFields kvs) ++ "\x7d"

/-- Serialize the elements of a JSON array. -/
def dumpsElems : List Json → List String
  | [] => []
  | x :: xs => jsonDumps x :: dumpsElems xs

/-- Serialize the fields of a JSON object. -/
def dumpsFields : List (String × Json) → List String
  | [] => []
  | (k, v) :: rest =>
      ("\"" ++ escapeString k ++ "\": " ++ jsonDumps v) :: dumpsFields rest
end

/-- Skip JSON whitespace. -/
def skipWs : List Char → List Char
  | c :: cs =>
      if c = ' ' ∨ c = '\n' ∨ c = '\t' ∨ c = '\r' then skipWs cs else c :: cs
  | [] => []

/-- Scan a maximal run of decimal digits. -/
def takeDigits : List Char → (List Char × List Char)
  | c :: cs =>
      if c.isDigit then
        let (ds, rest) := takeDigits cs
        (c :: ds, rest)
      else ([], c :: cs)
  | [] => ([], [])

/-- Numeric value of a digit run. -/
def digitsVal (ds : List Char) : Nat :=
  ds.foldl (fun a c => a * 10 + (c.toNat - 48)) 0

/-- Parse the remainder of a JSON string literal (the opening quote already
consumed), accumulating decoded characters in reverse. -/
def parseStr : List Char → List Char → Option (String × List Char)
  | acc, '"' :: rest => some (String.mk acc.reverse, rest)
  | acc, '\\' :: e :: rest =>
      if e = '"' ∨ e = '\\' ∨ e = '/' then parseStr (e :: acc) rest
      else if e = 'n' then parseStr ('\n' :: acc) rest
      else if e = 't' then parseStr ('\t' :: acc) rest
      else if e = 'r' then parseStr ('\r' :: acc) rest
      else none
  | acc, c :: rest => if c = '\\' then none else parseStr (c :: acc) rest
  | _, [] => none

mutual
/-- Fuel-indexed JSON value parsing (the model of `json.loads`; the fuel is an
upper bound on recursion depth, generous at the call site in `jsonLoads`). -/
def parseVal : Nat → List Char → Option (Json × List Char)
  | 0, _ => none
  | fuel + 1, cs =>
    match skipWs cs with
    | [] => none
    | c :: rest =>
      if c = 'n' then
        match rest with
        | 'u' :: 'l' :: 'l' :: r => some (.null, r)
        | _ => none
      else if c = 't' then
        match rest with
        | 'r' :: 'u' :: 'e' :: r => some (.bool true, r)
        | _ => none
      else if c = 'f' then
        match rest with
        | 'a' :: 'l' :: 's' :: 'e' :: r => some (.bool false, r)
        | _ => none
      else if c = '"' then
        (parseStr [] rest).map (fun p => (.str p.1, p.2))
      else if c = '[' then
        match skipWs rest with
        | ']' :: r => some (.arr [], r)
        | rest2 => (parseElems fuel rest2).map (fun p => (.arr p.1, p.2))
      else if c = lbrace then
        match skipWs rest with
        | d :: r =>
            if d = rbrace then some (.obj [], r)
            else (parseFields fuel (d :: r)).map (fun p => (.obj p.1, p.2))
        | [] => none
      else if c = '-' then
        match takeDigits rest with
        | ([], _) => none
        | (ds, r) => some (.num (-(digitsVal ds : Int)), r)
      else if c.isDigit then
        match takeDigits (c :: rest) with
        | (ds, r) => some (.num (digitsVal ds : Int), r)
      else none

/-- Parse one or more comma-separated array elements up to `]`. -/
def parseElems : Nat → List Char → Option (List Json × List Char)
  | 0, _ => none
  | fuel + 1, cs => do
    let (v, r) ← parseVal fuel cs
    match skipWs r with
    | ',' :: r2 => do
        let (vs, r3) ← parseElems fuel r2
        pure (v :: vs, r3)
    | ']' :: r2 => pure ([v], r2)
    | _ => none

/-- Parse one or more comma-separated object fields up to the closing brace. -/
def parseFields : Nat → List Char → Option (List (String × Json) × List Char)
  | 0, _ => none
  | fuel + 1, cs =>
    match skipWs cs with
    | '"' :: r => do
        let (k, r1) ← parseStr [] r
        match skipWs r1 with
        | ':' :: r2 => do
            let (v, r3) ← parseVal fuel r2
            match skipWs r3 with
            | ',' :: r4 => do
                let (kvs, r5) ← parseFields fuel r4
                pure ((k, v) :: kvs, r5)
            | d :: r4 =>
                if d = rbrace then pure ([(k, v)], r4) else none
            | [] => none
        | _ => none
    | _ => none
end

/-- Python's `json.loads` on the serialized recipe blobs: parse one value and
require only trailing whitespace after it. -/
def jsonLoads (s : String) : Option Json :=
  match parseVal (2 * s.length + 8) s.toList with
  | some (v, rest) => if skipWs rest = [] then some v else none
  | none => none

/-- Modelled from the spec: a row of the drinks table
(`src/backend/src/database/models.py`, not under `src/`).  `id` is assigned by
the persistence layer; `title` holds whatever value was assigned to the column
(a JSON string, or null); `recipe` is the serialized text blob. -/
structure Drink where
  id : Nat
  title : Json
  recipe : String
deriving Repr

/-- Modelled from the spec: the persistence layer's state — the drinks table
plus the next identifier the layer will assign on insert. -/
structure DbState where
  drinks : List Drink
  nextId : Nat
deriving Repr

/-- Insert a drink into the id-ordered position (helper for the persistence
layer's `order_by(Drink.id)` query). -/
def insertById (d : Drink) : List Drink → List Drink
  | [] => [d]
  | e :: es => if d.id ≤ e.id then d :: e :: es else e :: insertById d es

/-- Modelled from the spec: `Drink.query.order_by(Drink.id).all()` — the rows
of the table listed in ascending id order (insertion sort by id). -/
def orderById (ds : List Drink) : List Drink :=
  ds.foldr insertById []

/-- Modelled from the spec: `Drink.long()` — the long representation
`\x7bid, title, recipe\x7d` with recipe deserialized from the stored text;
`none` models the `json.loads` call raising. -/
def Drink.long (d : Drink) : Option Json :=
  (jsonLoads d.recipe).map (fun r =>
    .obj [("id", .num d.id), ("title", d.title), ("recipe", r)])

/-- Modelled from the spec: one short-form recipe item — the `\x7bcolor,
parts\x7d` projection of an ingredient object; `none` models the lookup
raising on a non-object item or a missing key. -/
def shortItem : Json → Option Json
  | .obj kvs => do
      let c ← lookupField kvs "color"
      let p ← lookupField kvs "parts"
      pure (.obj [("color", c), ("parts", p)])
  | _ => none

/-- Project every item of a recipe sequence, failing on the first item the
projection raises on. -/
def shortItems : List Json → Option (List Json)
  | [] => some []
  | it :: rest => do
      let sit ← shortItem it
      let rest2 ← shortItems rest
      pure (sit :: rest2)

/-- Short-form projection of a deserialized recipe value: a sequence of
ingredients is projected item-wise; a single ingredient object becomes a
one-item list (spec §3: recipe is one ingredient object or a sequence). -/
def shortRecipe : Json → Option (List Json)
  | .arr items => shortItems items
  | .obj kvs => (shortItem (.obj kvs)).map (fun i => [i])
  | _ => none

/-- Modelled from the spec: `Drink.short()` — the short representation
omitting ingredient names; `none` models deserialization or projection
raising. -/
def Drink.short (d : Drink) : Option Json := do
  let r ← jsonLoads d.recipe
  let items ← shortRecipe r
  pure (.obj [("id", .num d.id), ("title", d.title), ("recipe", .arr items)])

/-- Modelled from the spec: the `AuthError` exception of
`src/backend/src/auth/auth.py` (not under `src/`): it carries an error dict
`\x7bcode, description\x7d` and its own HTTP status code. -/
structure AuthError where
  code : String
  description : String
  status_code : Nat
deriving Repr

/-- The exceptions the embedded handlers can raise.  `http` is a
`werkzeug.HTTPException` from `flask.abort` (a subclass of `Exception`);
`auth` is an `AuthError` (also an `Exception` subclass); `py` is any other
Python exception (e.g. `AttributeError`, `TypeError`). -/
inductive Exc where
  | http (code : Nat) (description : String)
  | auth (e : AuthError)
  | py (msg : String)

/-- `flask.abort(code)`: raise the `HTTPException` for `code` (its default
werkzeug description is not read by any handler this app can reach, so it is
left empty). -/
def abortExc (code : Nat) : Exc := .http code ""

/-- Python's `try: body except Exception: handler` — every exception kind in
`Exc` models a subclass of `Exception`, so the handler runs on any failure of
the body.  (`except BaseException` in `post_drinks` behaves identically
here.) -/
def pyTry {α : Type} (body : Except Exc α) (handler : Except Exc α) :
    Except Exc α :=
  match body with
  | .ok a => .ok a
  | .error _ => handler

/-- Evaluate `d.short()` (resp. `d.long()`) for each drink of a Python list
comprehension, left to right; the first raising call aborts the whole
comprehension. -/
def mapPy (f : Drink → Option Json) : List Drink → Except Exc (List Json)
  | [] => .ok []
  | d :: ds =>
    match f d with
    | none => .error (.py "recipe deserialization failed")
    | some j =>
      match mapPy f ds with
      | .ok rest => .ok (j :: rest)
      | .error e => .error e

/-- An HTTP response: status code plus JSON body. -/
structure Response where
  status : Nat
  body : Json
deriving Repr

/-- The authorization-relevant state of an incoming request's bearer token,
as classified by `requires_auth` (spec §4.2). -/
inductive TokenState where
  | missingOrMalformedHeader
  | invalidToken
  | verifiedNoPermissions
  | verified (permissions : List String)

/-- Modelled from the spec (§4.2): the `requires_auth(permission)` decorator
of `src/backend/src/auth/auth.py` (not under `src/`).  A malformed header or
a token failing verification raises an `AuthError` mapped to 401; a verified
token without a permissions claim, or whose permission set lacks the required
string, raises a forbidden-kind `AuthError` mapped to 403.  On success the
decoded payload (here: the permission set) is passed to the handler. -/
def requires_auth (permission : String) :
    TokenState → Except Exc (List String)
  | .missingOrMalformedHeader =>
      .error (.auth ⟨"invalid_header", "Authorization header must be bearer token.", 401⟩)
  | .invalidToken =>
      .error (.auth ⟨"invalid_token", "Unable to parse authentication token.", 401⟩)
  | .verifiedNoPermissions =>
      .error (.auth ⟨"invalid_claims", "Permissions not included in JWT.", 403⟩)
  | .verified perms =>
      if permission ∈ perms then .ok perms
      else .error (.auth ⟨"unauthorized", "Permission not found.", 403⟩)

/-- The `@app.errorhandler(AuthError)` handler `authentification_error`
(api.py lines 191–197): status and body status echo the `AuthError`'s own
`status_code`, the message is its `error['description']`. -/
def authentification_error (e : AuthError) : Response :=
  ⟨e.status_code, .obj [("success", .bool false), ("error", .num e.status_code),
    ("message", .str e.description)]⟩

/-- The `@app.errorhandler(400)` handler (api.py lines 199–205). -/
def bad_request_error : Response :=
  ⟨400, .obj [("success", .bool false), ("error", .num 400),
    ("message", .str "Bad Request")]⟩

/-- The `@app.errorhandler(401)` handler (api.py lines 207–214); it also
echoes the `HTTPException`'s `description`. -/
def unauthorized_error (description : String) : Response :=
  ⟨401, .obj [("success", .bool false), ("error", .num 401),
    ("message", .str "Unauthorized"), ("description", .str description)]⟩

/-- The `@app.errorhandler(403)` handler (api.py lines 216–222). -/
def forbidden_error : Response :=
  ⟨403, .obj [("success", .bool false), ("error", .num 403),
    ("message", .str "Forbidden")]⟩

/-- The `@app.errorhandler(404)` handler (api.py lines 224–230). -/
def not_found_error : Response :=
  ⟨404, .obj [("success", .bool false), ("error", .num 404),
    ("message", .str "resource not found")]⟩

/-- The `@app.errorhandler(405)` handler (api.py lines 232–238; in the source
it shadows the name `not_found_error`). -/
def method_not_allowed_error : Response :=
  ⟨405, .obj [("success", .bool false), ("error", .num 405),
    ("message", .str "Method Not Allowed")]⟩

/-- The `@app.errorhandler(422)` handler `not_processable_error`
(api.py lines 240–246). -/
def not_processable_error : Response :=
  ⟨422, .obj [("success", .bool false), ("error", .num 422),
    ("message", .str "Not Processable")]⟩

/-- The `@app.errorhandler(500)` handler `server_error`
(api.py lines 248–254). -/
def server_error : Response :=
  ⟨500, .obj [("success", .bool false), ("error", .num 500),
    ("message", .str "Server Error")]⟩

/-- Flask's dispatch of an exception escaping a handler to the registered
error handlers: an `AuthError` goes to `authentification_error`; an
`HTTPException` goes to the handler registered for its code; any other
exception is converted to an internal server error (500).  No other HTTP
code is ever raised by this app, so the fallback branch is unreachable. -/
def renderError : Exc → Response
  | .http 400 _ => bad_request_error
  | .http 401 d => unauthorized_error d
  | .http 403 _ => forbidden_error
  | .http 404 _ => not_found_error
  | .http 405 _ => method_not_allowed_error
  | .http 422 _ => not_processable_error
  | .http 500 _ => server_error
  | .http c _ => ⟨c, .null⟩
  | .auth e => authentification_error e
  | .py _ => server_error

/-- Produce the final HTTP response from a handler's outcome. -/
def handle (r : Except Exc Response) : Response :=
  match r with
  | .ok resp => resp
  | .error e => renderError e

/-- `GET /drinks` (api.py lines 39–54).  Inside `try`: query the table in id
order, build the short forms, `abort(404)` on an empty list, else return 200;
`except Exception: abort(500)` — which also catches the `abort(404)`. -/
def getDrinks (s : DbState) : Response :=
  handle (pyTry
    (match mapPy Drink.short (orderById s.drinks) with
     | .error e => .error e
     | .ok short_drinks =>
       if short_drinks.length = 0 then .error (abortExc 404)
       else .ok ⟨200, .obj [("success", .bool true),
             ("drinks", .arr short_drinks)]⟩)
    (.error (abortExc 500)))

/-- `GET /drinks-detail` (api.py lines 64–80): as `getDrinks` but guarded by
`requires_auth('get:drinks-detail')` and using the long representation. -/
def getDrinksDetail (tok : TokenState) (s : DbState) : Response :=
  match requires_auth "get:drinks-detail" tok with
  | .error e => renderError e
  | .ok _payload =>
    handle (pyTry
      (match mapPy Drink.long (orderById s.drinks) with
       | .error e => .error e
       | .ok long_drinks =>
         if long_drinks.length = 0 then .error (abortExc 404)
         else .ok ⟨200, .obj [("success", .bool true),
               ("drinks", .arr long_drinks)]⟩)
      (.error (abortExc 500)))

/-- Python's `body.get(k, None)` where `body = request.get_json()`: on a JSON
object it yields the value (or `None` for an absent key); on `None` or any
non-dict value it raises `AttributeError`. -/
def pyGet (body : Option Json) (k : String) : Except Exc Json :=
  match body with
  | some (.obj kvs) => .ok ((lookupField kvs k).getD .null)
  | _ => .error (.py "AttributeError")

/-- Modelled from the spec: `insert` of the persistence layer — a new row
with the next fresh id is appended and the id counter advances. -/
def insertDrink (s : DbState) (title : Json) (recipe : String) :
    Drink × DbState :=
  let d : Drink := ⟨s.nextId, title, recipe⟩
  (d, ⟨s.drinks ++ [d], s.nextId + 1⟩)

/-- Modelled from the spec: `update` of the persistence layer — the row whose
id matches the mutated ORM object's id takes its new column values. -/
def updateDrink (s : DbState) (d : Drink) : DbState :=
  ⟨s.drinks.map (fun e => if e.id = d.id then d else e), s.nextId⟩

/-- Modelled from the spec: `delete` of the persistence layer — the row with
the given id is removed. -/
def deleteDrinkRow (s : DbState) (i : Nat) : DbState :=
  ⟨s.drinks.filter (fun e => !(e.id == i)), s.nextId⟩

/-- `POST /drinks` (api.py lines 91–112), guarded by
`requires_auth('post:drinks')`.  `body.get` is evaluated inside the `try`, so
a missing or non-object body raises into `except BaseException: abort(422)`;
a persistence failure of `insert` (modelled by `persistOk = false`) likewise
yields 422 with nothing stored. -/
def post_drinks (tok : TokenState) (s : DbState) (reqBody : Option Json)
    (persistOk : Bool) : Response × DbState :=
  match requires_auth "post:drinks" tok with
  | .error e => (renderError e, s)
  | .ok _payload =>
    match pyGet reqBody "title" with
    | .error _ => (renderError (abortExc 422), s)
    | .ok req_title =>
      match pyGet reqBody "recipe" with
      | .error _ => (renderError (abortExc 422), s)
      | .ok recipeVal =>
        let req_recipe := jsonDumps recipeVal
        if persistOk then
          let (drink, s2) := insertDrink s req_title req_recipe
          match drink.long with
          | some lj =>
              (⟨200, .obj [("success", .bool true), ("drinks", .arr [lj])]⟩, s2)
          | none => (renderError (abortExc 422), s2)
        else (renderError (abortExc 422), s)

/-- `PATCH /drinks/<id>` (api.py lines 125–155), guarded by
`requires_auth('patch:drinks')`.  The body is read and `body.get` evaluated
before the `try` (so a missing/non-object body raises an uncaught
`AttributeError` → 500); inside the `try`, `abort(404)` for a missing row is
caught by `except Exception: abort(422)`; only keys literally present
overwrite the corresponding column; `update` commits before `long()` is
evaluated, so the state change persists even if `long()` raises into the 422
branch. -/
def edit_drink (tok : TokenState) (s : DbState) (drink_id : Nat)
    (reqBody : Option Json) : Response × DbState :=
  match requires_auth "patch:drinks" tok with
  | .error e => (renderError e, s)
  | .ok _payload =>
    let drink? := s.drinks.find? (fun d => d.id == drink_id)
    match reqBody with
    | some (.obj kvs) =>
      let req_title : Json := (lookupField kvs "title").getD .null
      let req_recipe : String := jsonDumps ((lookupField kvs "recipe").getD .null)
      match drink? with
      | none => (renderError (abortExc 422), s)
      | some drink =>
        let drink1 :=
          if hasKeyB kvs "title" then { drink with title := req_title }
          else drink
        let drink2 :=
          if hasKeyB kvs "recipe" then { drink1 with recipe := req_recipe }
          else drink1
        let s2 := updateDrink s drink2
        match drink2.long with
        | some format_drink =>
            (⟨200, .obj [("success", .bool true),
              ("drinks", .arr [format_drink])]⟩, s2)
        | none => (renderError (abortExc 422), s2)
    | _ => (renderError (.py "AttributeError"), s)

/-- `DELETE /drinks/<id>` (api.py lines 167–185), guarded by
`requires_auth('delete:drinks')`.  Inside the `try`, `abort(404)` for a
missing row is caught by `except Exception: abort(422)`; an existing row is
deleted and 200 returned. -/
def deleteDrinks (tok : TokenState) (s : DbState) (drink_id : Nat) :
    Response × DbState :=
  match requires_auth "delete:drinks" tok with
  | .error e => (renderError e, s)
  | .ok _payload =>
    match s.drinks.find? (fun d => d.id == drink_id) with
    | none => (renderError (abortExc 422), s)
    | some _drink =>
        (⟨200, .obj [("success", .bool true), ("delete", .num drink_id)]⟩,
         deleteDrinkRow s drink_id)

/-- Keys of a JSON object (empty for non-objects). -/
def objKeys : Json → List String
  | .obj kvs => kvs.map Prod.fst
  | _ => []

/-- The items of the `recipe` field of a listing entry (empty when absent or
not an array). -/
def recipeItemsOf : Json → List Json
  | .obj kvs =>
    match lookupField kvs "recipe" with
    | some (.arr items) => items
    | _ => []
  | _ => []

/-- Key set of `a` is strictly contained in key set of `b`. -/
def strictKeySubset (a b : Json) : Prop :=
  (∀ k ∈ objKeys a, k ∈ objKeys b) ∧ ∃ k, k ∈ objKeys b ∧ k ∉ objKeys a

/-- An ingredient object per the data model: a JSON object carrying at least
the keys `name`, `color` and `parts`. -/
def isIngredientB : Json → Bool
  | .obj kvs =>
      (lookupField kvs "name").isSome && (lookupField kvs "color").isSome &&
        (lookupField kvs "parts").isSome
  | _ => false

/-- A drink whose stored recipe blob deserializes to a sequence of ingredient
objects (the data-model invariant for catalog rows). -/
def wellFormedRecipeB (d : Drink) : Bool :=
  match jsonLoads d.recipe with
  | some (.arr items) => items.all isIngredientB
  | _ => false

/-- Relation between a stored drink and its short-form listing entry: the
entry has the same top-level keys as the long form, each of its recipe items
has a strict subset of the keys of the corresponding long-form item, and no
short item carries a `name` key. -/
def shortEntrySpec (d : Drink) (sj : Json) : Prop :=
  ∃ lj, Drink.long d = some lj ∧
    objKeys sj = objKeys lj ∧
    List.Forall₂ strictKeySubset (recipeItemsOf sj) (recipeItemsOf lj) ∧
    ∀ it ∈ recipeItemsOf sj, "name" ∉ objKeys it

/-- The concrete `POST /drinks` recipe of the spec's example. -/
def waterRecipeJson : Json :=
  .arr [.obj [("name", .str "Water"), ("color", .str "blue"),
    ("parts", .num 1)]]

/-- The concrete `POST /drinks` body of the spec's example. -/
def waterPostBody : Json :=
  .obj [("title", .str "Water"), ("recipe", waterRecipeJson)]

/-- A concrete well-formed recipe blob, as stored after a POST. -/
def sampleRecipeText : String :=
  "[\x7b\"name\": \"n\", \"color\": \"c\", \"parts\": 1\x7d]"

/-- A concrete two-row catalog whose rows are out of id order. -/
def sampleState : DbState :=
  ⟨[⟨2, .str "b", sampleRecipeText⟩, ⟨1, .str "a", sampleRecipeText⟩], 3⟩

theorem mem_of_lookupField_some {kvs : List (String × Json)} {k : String}
    {v : Json} (h : lookupField kvs k = some v) : k ∈ kvs.map Prod.fst := by
  induction kvs with
  | nil => simp [lookupField] at h
  | cons kv rest ih =>
    obtain ⟨k2, v2⟩ := kv
    by_cases hk : k2 = k
    · subst hk; simp
    · simp only [lookupField, if_neg hk] at h
      simpa using Or.inr (ih h)

theorem hasKeyB_of_lookupField_some {kvs : List (String × Json)} {k : String}
    {v : Json} (h : lookupField kvs k = some v) : hasKeyB kvs k = true := by
  have hm := mem_of_lookupField_some h
  simp only [List.mem_map] at hm
  obtain ⟨kv, hkv, hfst⟩ := hm
  simp only [hasKeyB, List.any_eq_true]
  exact ⟨kv, hkv, by simp [hfst]⟩

theorem insertById_perm (d : Drink) (l : List Drink) :
    List.Perm (insertById d l) (d :: l) := by
  induction l with
  | nil => exact List.Perm.refl _
  | cons e es ih =>
    simp only [insertById]
    by_cases hle : d.id ≤ e.id
    · rw [if_pos hle]
    · rw [if_neg hle]
      exact (ih.cons e).trans (List.Perm.swap d e es)

theorem orderById_perm (ds : List Drink) : List.Perm (orderById ds) ds := by
  induction ds with
  | nil => exact List.Perm.refl _
  | cons d rest ih =>
    exact (insertById_perm d (orderById rest)).trans (ih.cons d)

theorem sorted_insertById {d : Drink} {l : List Drink}
    (h : l.Pairwise (fun a b => a.id ≤ b.id)) :
    (insertById d l).Pairwise (fun a b => a.id ≤ b.id) := by
  induction l with
  | nil => simp [insertById]
  | cons e es ih =>
    cases h with
    | cons he hes =>
      simp only [insertById]
      by_cases hle : d.id ≤ e.id
      · rw [if_pos hle]
        refine List.Pairwise.cons ?_ (List.Pairwise.cons he hes)
        intro b hb
        rcases List.mem_cons.mp hb with hb | hb
        · exact hb ▸ hle
        · exact Nat.le_trans hle (he b hb)
      · rw [if_neg hle]
        refine List.Pairwise.cons ?_ (ih hes)
        intro b hb
        have hb2 := (insertById_perm d es).mem_iff.mp hb
        rcases List.mem_cons.mp hb2 with hb2 | hb2
        · exact hb2 ▸ Nat.le_of_not_le hle
        · exact he b hb2

theorem sorted_orderById (ds : List Drink) :
    (orderById ds).Pairwise (fun a b => a.id ≤ b.id) := by
  induction ds with
  | nil => exact List.Pairwise.nil
  | cons d rest ih => exact sorted_insertById ih

theorem pairwise_lt_of_le_ne {l : List Nat}
    (hle : l.Pairwise (· ≤ ·)) (hnd : l.Nodup) : l.Pairwise (· < ·) := by
  induction l with
  | nil => exact List.Pairwise.nil
  | cons a t ih =>
    cases hle with
    | cons ha ht =>
      cases hnd with
      | cons na nt =>
        exact List.Pairwise.cons
          (fun b hb => Nat.lt_of_le_of_ne (ha b hb) (na b hb)) (ih ht nt)

theorem mapPy_ok_of_forall {f : Drink → Option Json}
    {P : Drink → Json → Prop} {l : List Drink}
    (h : ∀ d ∈ l, ∃ j, f d = some j ∧ P d j) :
    ∃ js, mapPy f l = .ok js ∧
      List.Forall₂ (fun d j => f d = some j ∧ P d j) l js := by
  induction l with
  | nil => exact ⟨[], rfl, List.Forall₂.nil⟩
  | cons d ds ih =>
    obtain ⟨j, hj, hP⟩ := h d (List.mem_cons_self d ds)
    obtain ⟨js, hjs, hF⟩ := ih (fun e he => h e (List.mem_cons_of_mem d he))
    exact ⟨j :: js, by simp [mapPy, hj, hjs], List.Forall₂.cons ⟨hj, hP⟩ hF⟩

theorem shortItem_spec {it : Json} (h : isIngredientB it = true) :
    ∃ sit, shortItem it = some sit ∧ strictKeySubset sit it ∧
      "name" ∉ objKeys sit := by
  cases it with
  | obj kvs =>
    simp only [isIngredientB, Bool.and_eq_true, Option.isSome_iff_exists] at h
    obtain ⟨⟨⟨n, hn⟩, ⟨c, hc⟩⟩, ⟨p, hp⟩⟩ := h
    refine ⟨.obj [("color", c), ("parts", p)], by simp [shortItem, hc, hp], ?_, by simp [objKeys]⟩
    constructor
    · intro k hk
      simp only [objKeys, List.map_cons, List.map_nil, List.mem_cons,
        List.not_mem_nil, or_false] at hk
      rcases hk with hk | hk
      · exact hk ▸ mem_of_lookupField_some hc
      · exact hk ▸ mem_of_lookupField_some hp
    · exact ⟨"name", mem_of_lookupField_some hn, by simp [objKeys]⟩
  | null => simp [isIngredientB] at h
  | bool b => simp [isIngredientB] at h
  | num n => simp [isIngredientB] at h
  | str s => simp [isIngredientB] at h
  | arr xs => simp [isIngredientB] at h

theorem shortItems_of_all {items : List Json}
    (h : ∀ it ∈ items, isIngredientB it = true) :
    ∃ sitems, shortItems items = some sitems ∧
      List.Forall₂ strictKeySubset sitems items ∧
      ∀ sit ∈ sitems, "name" ∉ objKeys sit := by
  induction items with
  | nil => exact ⟨[], rfl, List.Forall₂.nil, by simp⟩
  | cons it rest ih =>
    obtain ⟨sit, hsit, hsub, hname⟩ :=
      shortItem_spec (h it (List.mem_cons_self it rest))
    obtain ⟨sitems, hsitems, hF, hnames⟩ :=
      ih (fun e he => h e (List.mem_cons_of_mem it he))
    refine ⟨sit :: sitems, by simp [shortItems, hsit, hsitems],
      List.Forall₂.cons hsub hF, ?_⟩
    intro x hx
    rcases List.mem_cons.mp hx with hx | hx
    · exact hx ▸ hname
    · exact hnames x hx

theorem short_of_wellFormed {d : Drink} (h : wellFormedRecipeB d = true) :
    ∃ sj, Drink.short d = some sj ∧ shortEntrySpec d sj := by
  unfold wellFormedRecipeB at h
  cases hL : jsonLoads d.recipe with
  | none => rw [hL] at h; exact absurd h (by simp)
  | some r =>
    rw [hL] at h
    cases r with
    | arr items =>
      have hall : ∀ it ∈ items, isIngredientB it = true := by
        simpa [List.all_eq_true] using h
      obtain ⟨sitems, hsitems, hF, hnames⟩ := shortItems_of_all hall
      refine ⟨.obj [("id", .num d.id), ("title", d.title),
        ("recipe", .arr sitems)], ?_, ?_⟩
      · simp [Drink.short, hL, shortRecipe, hsitems]
      · refine ⟨.obj [("id", .num d.id), ("title", d.title),
          ("recipe", .arr items)], by simp [Drink.long, hL], rfl, ?_, ?_⟩
        · have e1 : recipeItemsOf (.obj [("id", Json.num d.id),
              ("title", d.title), ("recipe", .arr sitems)]) = sitems := rfl
          have e2 : recipeItemsOf (.obj [("id", Json.num d.id),
              ("title", d.title), ("recipe", .arr items)]) = items := rfl
          rw [e1, e2]
          exact hF
        · have e1 : recipeItemsOf (.obj [("id", Json.num d.id),
              ("title", d.title), ("recipe", .arr sitems)]) = sitems := rfl
          rw [e1]
          exact hnames
    | null => exact absurd h (by simp)
    | bool b => exact absurd h (by simp)
    | num n => exact absurd h (by simp)
    | str s => exact absurd h (by simp)
    | obj kvs => exact absurd h (by simp)

theorem id_eq_of_find? {l : List Drink} {i : Nat} {d : Drink}
    (h : l.find? (fun e => e.id == i) = some d) : d.id = i := by
  simpa using List.find?_some h

theorem edit_drink_drinks_eq
    (perms : List String) (s : DbState) (drink_id : Nat)
    (kvs : List (String × Json)) (d : Drink)
    (hperm : "patch:drinks" ∈ perms)
    (hnodup : (s.drinks.map Drink.id).Nodup)
    (hfind : s.drinks.find? (fun e => e.id == drink_id) = some d) :
    (edit_drink (.verified perms) s drink_id (some (.obj kvs))).2.drinks =
      s.drinks.map (fun e =>
        if e.id = drink_id then
          ⟨e.id,
           if hasKeyB kvs "title" then (lookupField kvs "title").getD .null
           else e.title,
           if hasKeyB kvs "recipe" then
             jsonDumps ((lookupField kvs "recipe").getD .null)
           else e.recipe⟩
        else e) := by
  have hid : d.id = drink_id := id_eq_of_find? hfind
  have hmem : d ∈ s.drinks := List.mem_of_find?_eq_some hfind
  have huniq : ∀ e ∈ s.drinks, e.id = drink_id → e = d := by
    intro e he hei
    exact List.inj_on_of_nodup_map hnodup he hmem (by rw [hei, hid])
  simp only [edit_drink, requires_auth, if_pos hperm, hfind]
  by_cases ht : hasKeyB kvs "title" = true <;>
    by_cases hr : hasKeyB kvs "recipe" = true <;>
    simp only [ht, hr, Bool.not_eq_true, ite_true, ite_false,
      Bool.false_eq_true]
  all_goals split
  all_goals
    simp only [updateDrink]
    refine List.map_congr_left ?_
    intro e he
    by_cases hei : e.id = drink_id
    · have hed : e = d := huniq e he hei
      subst hed
      subst hid
      rfl
    · simp [hei, hid]

theorem jsonDumps_null : jsonDumps Json.null = "null" := rfl

/-- C1: the claim states that `GET /drinks` and `GET /drinks-detail` return
404 on an empty catalog.  On the code, the `abort(404)` raised inside the
`try` block is itself an `Exception`, so `except Exception: abort(500)`
catches it and both endpoints return 500 on an empty catalog — contradicting
the explicit `abort(404)` the handlers contain.  This theorem evaluates both
endpoints at the failing input (empty drinks table, verified token carrying
`get:drinks-detail`). -/
theorem c1_empty_catalog_returns_500 :
    getDrinks ⟨[], 1⟩ = server_error ∧
    getDrinksDetail (.verified ["get:drinks-detail"]) ⟨[], 1⟩ = server_error ∧
    server_error.status = 500 ∧ ¬ server_error.status = 404 :=
  ⟨rfl, rfl, rfl, by decide⟩

/-- C2: the claim states that `PATCH /drinks/{id}` for a non-existent id
returns 404 and never 422.  On the code, the `abort(404)` in `edit_drink` is
raised inside the `try` block, caught by `except Exception: abort(422)`, so
the endpoint returns 422.  This theorem evaluates the endpoint at the failing
input (empty table, id 1, a well-formed JSON-object body, valid
`patch:drinks` token). -/
theorem c2_patch_missing_id_returns_422 :
    edit_drink (.verified ["patch:drinks"]) ⟨[], 1⟩ 1
      (some (.obj [("title", .str "Sparkling Water")])) =
      (not_processable_error, ⟨[], 1⟩) ∧
    not_processable_error.status = 422 ∧
    ¬ not_processable_error.status = 404 :=
  ⟨rfl, rfl, by decide⟩

/-- C3: the claim states that `DELETE /drinks/{id}` for a non-existent id
returns 404, with 422 reserved for persistence failures on existing rows.
On the code, the `abort(404)` in `deleteDrinks` is raised inside the `try`
block, caught by `except Exception: abort(422)`, so a missing id yields 422.
This theorem evaluates the endpoint at the failing input (empty table, id 1,
valid `delete:drinks` token). -/
theorem c3_delete_missing_id_returns_422 :
    deleteDrinks (.verified ["delete:drinks"]) ⟨[], 1⟩ 1 =
      (not_processable_error, ⟨[], 1⟩) ∧
    not_processable_error.status = 422 ∧
    ¬ not_processable_error.status = 404 :=
  ⟨rfl, rfl, by decide⟩

/-- C4: for every existing drink, a PATCH body whose keys include `title` but
not `recipe` rewrites only the stored title of the addressed row — its stored
recipe text stays byte-for-byte equal — and leaves every other row unchanged.
(The uniqueness hypothesis on ids reflects the persistence invariant; with a
duplicated id the Python `one_or_none` call would raise instead.) -/
theorem c4_patch_title_only_preserves_recipe (perms : List String)
    (s : DbState) (drink_id : Nat) (kvs : List (String × Json)) (d : Drink)
    (hperm : "patch:drinks" ∈ perms)
    (hnodup : (s.drinks.map Drink.id).Nodup)
    (hfind : s.drinks.find? (fun e => e.id == drink_id) = some d)
    (htitle : hasKeyB kvs "title" = true)
    (hnorecipe : hasKeyB kvs "recipe" = false) :
    (edit_drink (.verified perms) s drink_id (some (.obj kvs))).2.drinks =
      s.drinks.map (fun e =>
        if e.id = drink_id then
          ⟨e.id, (lookupField kvs "title").getD .null, e.recipe⟩
        else e) := by
  rw [edit_drink_drinks_eq perms s drink_id kvs d hperm hnodup hfind]
  refine List.map_congr_left ?_
  intro e _he
  simp [htitle, hnorecipe]

/-- C5: on every protected endpoint, a verified token whose permission set
lacks the required permission string yields the `AuthError` rendering: status
403 (not 401), with the response's `error` field and `message` taken from
the `AuthError`'s own `status_code` and `description`. -/
theorem c5_missing_permission_renders_403 (perms : List String) (s : DbState)
    (drink_id : Nat) (body : Option Json) (persistOk : Bool)
    (h1 : ¬ "get:drinks-detail" ∈ perms) (h2 : ¬ "post:drinks" ∈ perms)
    (h3 : ¬ "patch:drinks" ∈ perms) (h4 : ¬ "delete:drinks" ∈ perms) :
    getDrinksDetail (.verified perms) s =
      authentification_error ⟨"unauthorized", "Permission not found.", 403⟩ ∧
    (post_drinks (.verified perms) s body persistOk).1 =
      authentification_error ⟨"unauthorized", "Permission not found.", 403⟩ ∧
    (edit_drink (.verified perms) s drink_id body).1 =
      authentification_error ⟨"unauthorized", "Permission not found.", 403⟩ ∧
    (deleteDrinks (.verified perms) s drink_id).1 =
      authentification_error ⟨"unauthorized", "Permission not found.", 403⟩ ∧
    authentification_error ⟨"unauthorized", "Permission not found.", 403⟩ =
      ⟨403, .obj [("success", .bool false), ("error", .num 403),
        ("message", .str "Permission not found.")]⟩ := by
  refine ⟨?_, ?_, ?_, ?_, rfl⟩ <;>
    simp [getDrinksDetail, post_drinks, edit_drink, deleteDrinks,
      requires_auth, renderError, h1, h2, h3, h4]

/-- C8: deleting an existing id returns 200 with body
`\x7bsuccess: true, delete: id\x7d` and removes the row, so the id-ordered
listing a subsequent GET reads contains no row with that id. -/
theorem c8_delete_existing_removes_row (perms : List String) (s : DbState)
    (drink_id : Nat) (d : Drink)
    (hperm : "delete:drinks" ∈ perms)
    (hnodup : (s.drinks.map Drink.id).Nodup)
    (hfind : s.drinks.find? (fun e => e.id == drink_id) = some d) :
    deleteDrinks (.verified perms) s drink_id =
      (⟨200, .obj [("success", .bool true), ("delete", .num drink_id)]⟩,
        ⟨s.drinks.filter (fun e => !(e.id == drink_id)), s.nextId⟩) ∧
    ∀ e ∈ orderById (deleteDrinks (.verified perms) s drink_id).2.drinks,
      ¬ e.id = drink_id := by
  have h1 : deleteDrinks (.verified perms) s drink_id =
      (⟨200, .obj [("success", .bool true), ("delete", .num drink_id)]⟩,
        ⟨s.drinks.filter (fun e => !(e.id == drink_id)), s.nextId⟩) := by
    simp [deleteDrinks, requires_auth, hperm, hfind, deleteDrinkRow]
  refine ⟨h1, ?_⟩
  intro e he
  rw [h1] at he
  have he2 : e ∈ s.drinks.filter (fun e => !(e.id == drink_id)) :=
    (orderById_perm _).mem_iff.mp he
  simpa using List.of_mem_filter he2

/-- C9 (counterexample): the claim states every error body carries the fixed
message of its status code (403 → "Forbidden").  A verified token with an
empty permission set on `GET /drinks-detail` produces a 403 error response
whose message is the `AuthError`'s own description, "Permission not found.",
not "Forbidden" — so the claim as stated is false. -/
theorem c9_forbidden_message_not_fixed :
    (getDrinksDetail (.verified []) ⟨[], 1⟩).status = 403 ∧
    (getDrinksDetail (.verified []) ⟨[], 1⟩).body =
      .obj [("success", .bool false), ("error", .num 403),
        ("message", .str "Permission not found.")] ∧
    ¬ ("Permission not found." : String) = "Forbidden" :=
  ⟨rfl, rfl, by decide⟩

/-- C9 (amended): every error response rendered by one of the seven numeric
HTTP error handlers carries `success: false`, an `error` field echoing the
status code, and the fixed message of that code (401 additionally echoes the
exception's description); a response rendered from an `AuthError` instead
carries the `AuthError`'s own status code and its description as the
message. -/
theorem c9_error_bodies_fixed_mapping :
    (∀ dsc : String, renderError (.http 400 dsc) =
      ⟨400, .obj [("success", .bool false), ("error", .num 400),
        ("message", .str "Bad Request")]⟩) ∧
    (∀ dsc : String, renderError (.http 401 dsc) =
      ⟨401, .obj [("success", .bool false), ("error", .num 401),
        ("message", .str "Unauthorized"), ("description", .str dsc)]⟩) ∧
    (∀ dsc : String, renderError (.http 403 dsc) =
      ⟨403, .obj [("success", .bool false), ("error", .num 403),
        ("message", .str "Forbidden")]⟩) ∧
    (∀ dsc : String, renderError (.http 404 dsc) =
      ⟨404, .obj [("success", .bool false), ("error", .num 404),
        ("message", .str "resource not found")]⟩) ∧
    (∀ dsc : String, renderError (.http 405 dsc) =
      ⟨405, .obj [("success", .bool false), ("error", .num 405),
        ("message", .str "Method Not Allowed")]⟩) ∧
    (∀ dsc : String, renderError (.http 422 dsc) =
      ⟨422, .obj [("success", .bool false), ("error", .num 422),
        ("message", .str "Not Processable")]⟩) ∧
    (∀ dsc : String, renderError (.http 500 dsc) =
      ⟨500, .obj [("success", .bool false), ("error", .num 500),
        ("message", .str "Server Error")]⟩) ∧
    (∀ e : AuthError, renderError (.auth e) =
      ⟨e.status_code, .obj [("success", .bool false),
        ("error", .num e.status_code), ("message", .str e.description)]⟩) :=
  ⟨fun _ => rfl, fun _ => rfl, fun _ => rfl, fun _ => rfl, fun _ => rfl,
    fun _ => rfl, fun _ => rfl, fun _ => rfl⟩

/-- C10: a PATCH body carrying `title` and `recipe` with explicit JSON null
values overwrites the stored title with null and the stored recipe blob with
the serialized text "null", while a body omitting both keys leaves the table
exactly as it was — the two requests are observably different. -/
theorem c10_patch_explicit_null_overwrites (perms : List String)
    (s : DbState) (drink_id : Nat) (kvs kvs2 : List (String × Json))
    (d : Drink)
    (hperm : "patch:drinks" ∈ perms)
    (hnodup : (s.drinks.map Drink.id).Nodup)
    (hfind : s.drinks.find? (fun e => e.id == drink_id) = some d)
    (htnull : lookupField kvs "title" = some .null)
    (hrnull : lookupField kvs "recipe" = some .null)
    (hno2t : hasKeyB kvs2 "title" = false)
    (hno2r : hasKeyB kvs2 "recipe" = false) :
    (edit_drink (.verified perms) s drink_id (some (.obj kvs))).2.drinks =
      s.drinks.map (fun e =>
        if e.id = drink_id then ⟨e.id, .null, "null"⟩ else e) ∧
    (edit_drink (.verified perms) s drink_id (some (.obj kvs2))).2.drinks =
      s.drinks := by
  constructor
  · rw [edit_drink_drinks_eq perms s drink_id kvs d hperm hnodup hfind]
    refine List.map_congr_left ?_
    intro e _he
    simp [hasKeyB_of_lookupField_some htnull,
      hasKeyB_of_lookupField_some hrnull, htnull, hrnull, jsonDumps_null]
  · rw [edit_drink_drinks_eq perms s drink_id kvs2 d hperm hnodup hfind]
    have : ∀ e ∈ s.drinks,
        (if e.id = drink_id then
          (⟨e.id,
            if hasKeyB kvs2 "title" then (lookupField kvs2 "title").getD .null
            else e.title,
            if hasKeyB kvs2 "recipe" then
              jsonDumps ((lookupField kvs2 "recipe").getD .null)
            else e.recipe⟩ : Drink)
        else e) = e := by
      intro e _he
      simp [hno2t, hno2r]
    rw [List.map_congr_left this]
    exact List.map_id' s.drinks

theorem jsonLoads_water :
    jsonLoads (jsonDumps waterRecipeJson) = some waterRecipeJson := rfl

/-- C6: on every well-formed catalog with at least one drink, `GET /drinks`
returns 200 with one short-form entry per stored row, the rows listed in
strictly ascending id order; each entry has the same top-level keys as the
corresponding long form, each of its recipe items carries a strict subset of
the keys of the corresponding long-form item, and no recipe item carries a
`name` key. -/
theorem c6_get_drinks_short_listing (s : DbState)
    (hne : ¬ s.drinks = [])
    (hnodup : (s.drinks.map Drink.id).Nodup)
    (hwf : ∀ d ∈ s.drinks, wellFormedRecipeB d = true) :
    ∃ shorts : List Json,
      getDrinks s = ⟨200, .obj [("success", .bool true),
        ("drinks", .arr shorts)]⟩ ∧
      shorts.length = s.drinks.length ∧
      ((orderById s.drinks).map Drink.id).Pairwise (· < ·) ∧
      List.Forall₂ (fun d sj => Drink.short d = some sj ∧ shortEntrySpec d sj)
        (orderById s.drinks) shorts := by
  have hp := orderById_perm s.drinks
  have hwf2 : ∀ d ∈ orderById s.drinks, wellFormedRecipeB d = true :=
    fun d hd => hwf d (hp.mem_iff.mp hd)
  obtain ⟨shorts, hmap, hF⟩ :=
    mapPy_ok_of_forall (fun d hd => short_of_wellFormed (hwf2 d hd))
  have hlen : shorts.length = s.drinks.length :=
    hF.length_eq.symm.trans hp.length_eq
  have hlen0 : ¬ shorts.length = 0 := by
    rw [hlen]
    intro h0
    exact hne (List.length_eq_zero.mp h0)
  refine ⟨shorts, ?_, hlen, ?_, hF⟩
  · simp only [getDrinks, hmap]
    simp [pyTry, handle, hlen0]
  · exact pairwise_lt_of_le_ne
      (List.pairwise_map.mpr (sorted_orderById s.drinks))
      ((hp.map Drink.id).nodup_iff.mpr hnodup)

/-- C7: `POST /drinks` with the body
`\x7btitle: "Water", recipe: [\x7bname: "Water", color: "blue",
parts: 1\x7d]\x7d` and a valid `post:drinks` token returns 200 with exactly
one long-form entry whose id is the persistence layer's freshly assigned id
(distinct from every stored id) and whose title is "Water"; if the
persistence insert fails the request returns 422 and stores nothing. -/
theorem c7_post_water (s : DbState) (perms : List String)
    (hperm : "post:drinks" ∈ perms)
    (hfresh : ∀ d ∈ s.drinks, d.id < s.nextId) :
    post_drinks (.verified perms) s (some waterPostBody) true =
      (⟨200, .obj [("success", .bool true), ("drinks",
          .arr [.obj [("id", .num s.nextId), ("title", .str "Water"),
            ("recipe", waterRecipeJson)]])]⟩,
        ⟨s.drinks ++ [⟨s.nextId, .str "Water", jsonDumps waterRecipeJson⟩],
          s.nextId + 1⟩) ∧
    ¬ s.nextId ∈ s.drinks.map Drink.id ∧
    post_drinks (.verified perms) s (some waterPostBody) false =
      (not_processable_error, s) := by
  refine ⟨?_, ?_, ?_⟩
  · simp only [post_drinks, requires_auth, if_pos hperm, waterPostBody,
      pyGet, lookupField, insertDrink, Drink.long, jsonLoads_water]
    rfl
  · intro hmem
    obtain ⟨d, hd, hdid⟩ := List.mem_map.mp hmem
    exact absurd hdid (Nat.ne_of_lt (hfresh d hd))
  · simp only [post_drinks, requires_auth, if_pos hperm, waterPostBody,
      pyGet, lookupField]
    rfl

/-- Witness for C4: a two-row catalog, patching row 1 with a title-only
body. -/
theorem c4_witness :
    ("patch:drinks" ∈ (["patch:drinks"] : List String)) ∧
    ((([⟨1, .str "a", "[]"⟩, ⟨2, .str "b", "null"⟩] : List Drink)).map
      Drink.id).Nodup ∧
    (([⟨1, .str "a", "[]"⟩, ⟨2, .str "b", "null"⟩] : List Drink).find?
      (fun e => e.id == 1) = some ⟨1, .str "a", "[]"⟩) ∧
    hasKeyB [("title", Json.str "Sparkling Water")] "title" = true ∧
    hasKeyB [("title", Json.str "Sparkling Water")] "recipe" = false ∧
    (edit_drink (.verified ["patch:drinks"])
        ⟨[⟨1, .str "a", "[]"⟩, ⟨2, .str "b", "null"⟩], 3⟩ 1
        (some (.obj [("title", .str "Sparkling Water")]))).2.drinks =
      ([⟨1, .str "a", "[]"⟩, ⟨2, .str "b", "null"⟩] : List Drink).map
        (fun e =>
          if e.id = 1 then
            ⟨e.id, (lookupField [("title", Json.str "Sparkling Water")]
              "title").getD .null, e.recipe⟩
          else e) :=
  ⟨by decide, by decide, rfl, rfl, rfl,
    c4_patch_title_only_preserves_recipe ["patch:drinks"]
      ⟨[⟨1, .str "a", "[]"⟩, ⟨2, .str "b", "null"⟩], 3⟩ 1
      [("title", .str "Sparkling Water")] ⟨1, .str "a", "[]"⟩
      (by decide) (by decide) rfl rfl rfl⟩

/-- Witness for C5: an empty permission set on every protected endpoint. -/
theorem c5_witness :
    (¬ "get:drinks-detail" ∈ ([] : List String)) ∧
    (¬ "post:drinks" ∈ ([] : List String)) ∧
    (¬ "patch:drinks" ∈ ([] : List String)) ∧
    (¬ "delete:drinks" ∈ ([] : List String)) ∧
    (getDrinksDetail (.verified []) ⟨[], 1⟩ =
      authentification_error ⟨"unauthorized", "Permission not found.", 403⟩ ∧
    (post_drinks (.verified []) ⟨[], 1⟩ none true).1 =
      authentification_error ⟨"unauthorized", "Permission not found.", 403⟩ ∧
    (edit_drink (.verified []) ⟨[], 1⟩ 0 none).1 =
      authentification_error ⟨"unauthorized", "Permission not found.", 403⟩ ∧
    (deleteDrinks (.verified []) ⟨[], 1⟩ 0).1 =
      authentification_error ⟨"unauthorized", "Permission not found.", 403⟩ ∧
    authentification_error ⟨"unauthorized", "Permission not found.", 403⟩ =
      ⟨403, .obj [("success", .bool false), ("error", .num 403),
        ("message", .str "Permission not found.")]⟩) :=
  ⟨by decide, by decide, by decide, by decide,
    c5_missing_permission_renders_403 [] ⟨[], 1⟩ 0 none true
      (by decide) (by decide) (by decide) (by decide)⟩

/-- Witness for C6: the sample catalog (two rows, stored out of id order). -/
theorem c6_witness :
    (¬ sampleState.drinks = []) ∧
    (sampleState.drinks.map Drink.id).Nodup ∧
    (∀ d ∈ sampleState.drinks, wellFormedRecipeB d = true) ∧
    (∃ shorts : List Json,
      getDrinks sampleState = ⟨200, .obj [("success", .bool true),
        ("drinks", .arr shorts)]⟩ ∧
      shorts.length = sampleState.drinks.length ∧
      ((orderById sampleState.drinks).map Drink.id).Pairwise (· < ·) ∧
      List.Forall₂ (fun d sj => Drink.short d = some sj ∧ shortEntrySpec d sj)
        (orderById sampleState.drinks) shorts) :=
  ⟨by simp [sampleState], by decide, by decide,
    c6_get_drinks_short_listing sampleState (by simp [sampleState])
      (by decide) (by decide)⟩

/-- Witness for C7: posting the water drink into an empty catalog. -/
theorem c7_witness :
    ("post:drinks" ∈ (["post:drinks"] : List String)) ∧
    (∀ d ∈ (⟨[], 1⟩ : DbState).drinks, d.id < (⟨[], 1⟩ : DbState).nextId) ∧
    (post_drinks (.verified ["post:drinks"]) ⟨[], 1⟩ (some waterPostBody)
        true =
      (⟨200, .obj [("success", .bool true), ("drinks",
          .arr [.obj [("id", .num 1), ("title", .str "Water"),
            ("recipe", waterRecipeJson)]])]⟩,
        ⟨[⟨1, .str "Water", jsonDumps waterRecipeJson⟩], 2⟩) ∧
    ¬ (1 : Nat) ∈ ([] : List Drink).map Drink.id ∧
    post_drinks (.verified ["post:drinks"]) ⟨[], 1⟩ (some waterPostBody)
        false =
      (not_processable_error, ⟨[], 1⟩)) :=
  ⟨by decide, by simp,
    c7_post_water ⟨[], 1⟩ ["post:drinks"] (by decide) (by simp)⟩

/-- Witness for C8: deleting the only row of a one-row catalog. -/
theorem c8_witness :
    ("delete:drinks" ∈ (["delete:drinks"] : List String)) ∧
    ((([⟨1, .str "a", "[]"⟩] : List Drink)).map Drink.id).Nodup ∧
    (([⟨1, .str "a", "[]"⟩] : List Drink).find? (fun e => e.id == 1) =
      some ⟨1, .str "a", "[]"⟩) ∧
    (deleteDrinks (.verified ["delete:drinks"]) ⟨[⟨1, .str "a", "[]"⟩], 2⟩
        1 =
      (⟨200, .obj [("success", .bool true), ("delete", .num 1)]⟩,
        ⟨[], 2⟩) ∧
    ∀ e ∈ orderById (deleteDrinks (.verified ["delete:drinks"])
        ⟨[⟨1, .str "a", "[]"⟩], 2⟩ 1).2.drinks, ¬ e.id = 1) :=
  ⟨by decide, by decide, rfl,
    c8_delete_existing_removes_row ["delete:drinks"]
      ⟨[⟨1, .str "a", "[]"⟩], 2⟩ 1 ⟨1, .str "a", "[]"⟩
      (by decide) (by decide) rfl⟩

/-- Witness for C10: patching row 1 with explicit nulls versus an empty
body. -/
theorem c10_witness :
    ("patch:drinks" ∈ (["patch:drinks"] : List String)) ∧
    ((([⟨1, .str "a", "[]"⟩, ⟨2, .str "b", "null"⟩] : List Drink)).map
      Drink.id).Nodup ∧
    (([⟨1, .str "a", "[]"⟩, ⟨2, .str "b", "null"⟩] : List Drink).find?
      (fun e => e.id == 1) = some ⟨1, .str "a", "[]"⟩) ∧
    (lookupField [("title", Json.null), ("recipe", Json.null)] "title" =
      some .null) ∧
    (lookupField [("title", Json.null), ("recipe", Json.null)] "recipe" =
      some .null) ∧
    hasKeyB ([] : List (String × Json)) "title" = false ∧
    hasKeyB ([] : List (String × Json)) "recipe" = false ∧
    ((edit_drink (.verified ["patch:drinks"])
        ⟨[⟨1, .str "a", "[]"⟩, ⟨2, .str "b", "null"⟩], 3⟩ 1
        (some (.obj [("title", Json.null), ("recipe", Json.null)]))).2.drinks =
      ([⟨1, .str "a", "[]"⟩, ⟨2, .str "b", "null"⟩] : List Drink).map
        (fun e => if e.id = 1 then ⟨e.id, .null, "null"⟩ else e) ∧
    (edit_drink (.verified ["patch:drinks"])
        ⟨[⟨1, .str "a", "[]"⟩, ⟨2, .str "b", "null"⟩], 3⟩ 1
        (some (.obj ([] : List (String × Json))))).2.drinks =
      ([⟨1, .str "a", "[]"⟩, ⟨2, .str "b", "null"⟩] : List Drink)) :=
  ⟨by decide, by decide, rfl, rfl, rfl, rfl, rfl,
    c10_patch_explicit_null_overwrites ["patch:drinks"]
      ⟨[⟨1, .str "a", "[]"⟩, ⟨2, .str "b", "null"⟩], 3⟩ 1
      [("title", Json.null), ("recipe", Json.null)] []
      ⟨1, .str "a", "[]"⟩
      (by decide) (by decide) rfl rfl rfl rfl rfl⟩

end CoffeeShop
